import Mathlib

/-!
Shallow embedding of the Expense-Management-App backend
(`scripts/utils/sqlalchemy2_utils.py`, `scripts/utils/mongo_util.py`,
`scripts/core/handlers/*.py`, `scripts/core/services/*.py`,
`scripts/core/db/psql/db_models/__init__.py`,
`scripts/config/constants.py`), together with theorems settling the
frozen claims about the natural-language specification.

Modelling conventions:
* Python exceptions are modelled with `Except PyError`; a `try/except`
  block that logs and re-raises propagates the error, one that logs and
  falls through returns the Python `None` (modelled as `Option.none`).
* The relational store is modelled as the in-memory list of rows of the
  table; the outcome of the underlying `session.execute` is passed in
  explicitly (`Except PyError`) where a claim is about store failure.
* Machine-level details (connection pooling, SQL text generation) are
  outside the claims and not modelled.
-/

namespace ExpenseApp

/-- Python exception values distinguished by the handlers and utils.
`customError msg` is `CustomError(msg)` from `scripts.exceptions.module_exception`;
`storeError` stands for any exception raised by the underlying store driver;
`indexError` / `typeError` are the built-in Python exceptions;
`nonColumnAttr` marks the outcome of handing a non-column class attribute
(e.g. `Categories.metadata`) to SQLAlchemy `desc()/asc()/like/==` — behaviour
of the SQLAlchemy library outside this repository, modelled as a
distinguished error and excluded from every theorem's hypotheses. -/
inductive PyError where
  | customError (msg : String)
  | storeError (msg : String)
  | indexError
  | typeError
  | nonColumnAttr
deriving Repr, DecidableEq

/-- `scripts/core/schemas/__init__.py` class `MetaData`:
all fields optional with defaults `""` / `0`. -/
structure MetaData where
  created_by : String := ""
  created_at : Int := 0
  updated_at : Int := 0
  updated_by : String := ""
deriving Repr, DecidableEq

/-- A row of the `categories` table
(`scripts/core/db/psql/db_models/__init__.py` class `Categories`). -/
structure CatRow where
  category_id : String
  category_name : String
  description : String
  meta : MetaData
deriving Repr, DecidableEq

/-- A row of the `transaction` table
(`scripts/core/db/psql/db_models/__init__.py` class `Transactions`).
The `amount` column is declared `Mapped[str]` in the table model; its
numeric interpretation plays no role in any claim, so it is carried as the
stored string. -/
structure TransRow where
  t_id : String
  category_id : String
  amount : String
  description : String
  meta : MetaData
deriving Repr, DecidableEq

/-- `scripts/core/schemas/category_model.py` class `CreateCategoriesModel`. -/
structure CreateCategoriesModel where
  category_id : String := ""
  category_name : String
  description : String := ""
  meta : Option MetaData := none
deriving Repr, DecidableEq

/-- `scripts/core/schemas/transaction_model.py` class `CreateTransactionModel`.
`amount` is carried in its stored (string) form, see `TransRow.amount`. -/
structure CreateTransactionModel where
  t_id : String := ""
  category_id : String
  amount : String
  description : String := ""
  meta : Option MetaData := none
deriving Repr, DecidableEq

/-! ## FilterSpec and the compiled query (`SQLQueryBuilder`) -/

/-- A value appearing in `filterModel`: `query_builder` distinguishes
strings (possibly containing the `%` wildcard) from everything else. -/
inductive FilterVal where
  | str (s : String)
  | num (n : Int)
deriving Repr, DecidableEq

/-- One entry of `sortModel`: a dict `{"colId": ..., "sort": ...}`. -/
structure SortEntry where
  colId : String
  sort : String
deriving Repr, DecidableEq

/-- `scripts/core/schemas/*.py` class `FilterModel`:
`filterModel` is a dict (association list, iteration order preserved),
`sortModel` a list. -/
structure FilterModel where
  filterModel : List (String × FilterVal) := []
  sortModel : List SortEntry := []
deriving Repr, DecidableEq

/-- Sort direction of an SQL `ORDER BY` clause. -/
inductive SortDir where
  | descD
  | ascD
deriving Repr, DecidableEq

/-- An `ORDER BY` clause produced by `SQLQueryBuilder.add_filters`:
either on a direct table column, or on the text extraction
`meta->>'fld'` of the JSON side column. -/
inductive OrderClause where
  | colOrd (col : String) (dir : SortDir)
  | metaOrd (fld : String) (dir : SortDir)
deriving Repr, DecidableEq

/-- A `WHERE` conjunct produced by `SQLQueryBuilder.query_builder`:
`column.like(pat)` or `column == v`. -/
inductive FilterCond where
  | likeCond (col : String) (pat : String)
  | eqCond (col : String) (v : FilterVal)
deriving Repr, DecidableEq

/-- The compiled query: the base `select(table)` statement together with
the accumulated `WHERE` conjuncts and `ORDER BY` clauses (SQLAlchemy
appends on each `.filter` / `.order_by` call). -/
structure SqlQuery where
  conds : List FilterCond := []
  orders : List OrderClause := []
deriving Repr, DecidableEq

/-- A table as seen by the reflective checks of `SQLQueryBuilder`:
`cols` are the mapped columns (for which `hasattr` is true and `getattr`
yields a column object); `attrs` are the remaining class attributes for
which `hasattr` is also true but `getattr` yields a non-column object
(e.g. `metadata`, `registry` on every declarative class). -/
structure TableModel where
  cols : List String
  attrs : List String
deriving Repr, DecidableEq

/-- The `Categories` declarative table. -/
def Categories : TableModel :=
  { cols := ["category_id", "category_name", "description", "meta"]
    attrs := ["metadata", "registry"] }

/-- The `Transactions` declarative table. -/
def Transactions : TableModel :=
  { cols := ["t_id", "category_id", "amount", "description", "meta"]
    attrs := ["metadata", "registry"] }

/-- `QueryConstants.key_column_map` from `scripts/config/constants.py`. -/
def key_column_map : List (String × String) := [("created_at", "meta.created_at")]

/-- `key_column_map.get(colId, colId)`: alias resolution applied to every
sort entry before any other check. -/
def resolveColId (k : String) : String :=
  match key_column_map.find? (fun p => p.1 == k) with
  | some p => p.2
  | none => k

/-- Split a character list at every occurrence of `sep`
(auxiliary for `pySplit`). -/
def splitChars (sep : Char) : List Char → List (List Char)
  | [] => [[]]
  | c :: rest =>
    match splitChars sep rest with
    | h :: t => if c == sep then [] :: h :: t else (c :: h) :: t
    | [] => if c == sep then [[], []] else [[c]]

/-- Python `s.split(sep)` for a one-character separator: always at least
one piece, an empty string between adjacent separators. -/
def pySplit (s : String) (sep : Char) : List String :=
  (splitChars sep s.data).map (fun l => String.mk l)

/-- Python `s.lower()` (ASCII, which is all the code compares). -/
def pyLower (s : String) : String :=
  String.mk (s.data.map Char.toLower)

/-- Python `s.startswith(pre)`. -/
def pyStartsWith (s pre : String) : Bool :=
  pre.data.isPrefixOf s.data

/-- Python `c in s` for a single-character `c`. -/
def pyContainsChar (s : String) (c : Char) : Bool :=
  s.data.contains c

/-- One iteration of the `sortModel` loop in `SQLQueryBuilder.add_filters`:
* alias-resolve the column id;
* if `hasattr(table, colId)`: compare the direction case-insensitively to
  `"desc"` / `"asc"` and append the matching order clause (any other
  direction adds nothing); `desc()/asc()` of a non-column attribute is the
  out-of-repo SQLAlchemy failure `nonColumnAttr`;
* elif the resolved id starts with `"meta"`: take `colId.split(".")[1]`
  (IndexError when there is no `"."`) and order by `meta->>'field'`,
  descending for `"desc"` and ascending for any other direction;
* else: the entry adds nothing. -/
def addSortEntry (table : TableModel) (q : SqlQuery) (e : SortEntry) :
    Except PyError SqlQuery :=
  if table.cols.contains (resolveColId e.colId) || table.attrs.contains (resolveColId e.colId) then
    if pyLower e.sort == "desc" then
      if table.cols.contains (resolveColId e.colId) then
        .ok { q with orders := q.orders ++ [.colOrd (resolveColId e.colId) .descD] }
      else .error .nonColumnAttr
    else if pyLower e.sort == "asc" then
      if table.cols.contains (resolveColId e.colId) then
        .ok { q with orders := q.orders ++ [.colOrd (resolveColId e.colId) .ascD] }
      else .error .nonColumnAttr
    else .ok q
  else if pyStartsWith (resolveColId e.colId) "meta" then
    match (pySplit (resolveColId e.colId) '.').get? 1 with
    | none => .error .indexError
    | some fld =>
      if pyLower e.sort == "desc" then
        .ok { q with orders := q.orders ++ [.metaOrd fld .descD] }
      else
        .ok { q with orders := q.orders ++ [.metaOrd fld .ascD] }
  else .ok q

/-- One iteration of the `filterModel` loop in
`SQLQueryBuilder.query_builder`: if `hasattr(table, key)` and the
attribute is a mapped column, add `column.like(value)` when the value is a
string containing `%`, else `column == value`; a non-column attribute is
the out-of-repo SQLAlchemy outcome `nonColumnAttr`; otherwise the pair is
skipped. -/
def addFilterEntry (table : TableModel) (q : SqlQuery) (kv : String × FilterVal) :
    Except PyError SqlQuery :=
  if table.cols.contains kv.1 then
    match kv.2 with
    | .str s =>
      if pyContainsChar s '%' then
        .ok { q with conds := q.conds ++ [.likeCond kv.1 s] }
      else
        .ok { q with conds := q.conds ++ [.eqCond kv.1 (.str s)] }
    | v => .ok { q with conds := q.conds ++ [.eqCond kv.1 v] }
  else if table.attrs.contains kv.1 then .error .nonColumnAttr
  else .ok q

/-- The `for each_sort in input_data.filters.sortModel` loop: entries are
processed in caller order, a raised exception aborts the loop. -/
def sortLoop (table : TableModel) : SqlQuery → List SortEntry → Except PyError SqlQuery
  | q, [] => .ok q
  | q, e :: rest =>
    match addSortEntry table q e with
    | .ok q1 => sortLoop table q1 rest
    | .error err => .error err

/-- The `for _key, _value in filter_dict.items()` loop of
`SQLQueryBuilder.query_builder`. -/
def filterLoop (table : TableModel) :
    SqlQuery → List (String × FilterVal) → Except PyError SqlQuery
  | q, [] => .ok q
  | q, kv :: rest =>
    match addFilterEntry table q kv with
    | .ok q1 => filterLoop table q1 rest
    | .error err => .error err

/-- `SQLQueryBuilder.query_builder`: loop over the `filterModel` items. -/
def query_builder (table : TableModel) (q : SqlQuery)
    (filter_dict : List (String × FilterVal)) : Except PyError SqlQuery :=
  filterLoop table q filter_dict

/-- `SQLQueryBuilder.add_filters`: process `sortModel` first (appending
order clauses in caller order), then `filterModel`.  An empty list makes
the corresponding `if input_data.filters...` guard skip the loop, which
coincides with looping over the empty list. -/
def add_filters (table : TableModel) (q : SqlQuery) (input : FilterModel) :
    Except PyError SqlQuery :=
  match sortLoop table q input.sortModel with
  | .ok q1 => query_builder table q1 input.filterModel
  | .error err => .error err

/-! ## Generic table accessor (`SqlAlchemyUtil`) -/

/-- Shape of the value produced by `SqlAlchemyUtil.fetch_as_json` on a
successful execution: a mapping list of length exactly one is collapsed to
the single row object (`data[0] if len(data) == 1 else data`). -/
inductive FetchResult (Row : Type) where
  | single (r : Row)
  | many (rs : List Row)
deriving Repr, DecidableEq

/-- `SqlAlchemyUtil.fetch_as_json`: execute the query; on success encode
the mappings, collapsing a one-element list to its single element; the
`except` block logs and falls through, so a failing execution returns the
Python `None` (here `Option.none`). -/
def fetch_as_json {Row : Type} (execResult : Except PyError (List Row)) :
    Option (FetchResult Row) :=
  match execResult with
  | .error _ => none
  | .ok data =>
    some (match data with
      | [r] => .single r
      | rs => .many rs)

/-- Result of `SqlAlchemyUtil.select_from_table`: the `select_one` branch
yields `.mappings().first()` (first row or `None`); the default branch
yields the value of `fetch_as_json`. -/
inductive SelectOut (Row : Type) where
  | one (r : Option Row)
  | json (r : Option (FetchResult Row))
deriving Repr, DecidableEq

/-- `SqlAlchemyUtil.select_from_table` in its JSON mode (the mode every
caller in this repository uses: `return_type` JSON, `return_count` false).
The outer `try` re-raises (`raise e`) any exception, but in the default
branch `fetch_by_query`/`fetch_as_json` already swallow the execution
failure, so only the `select_one` branch can propagate one. -/
def select_from_table {Row : Type} (execResult : Except PyError (List Row))
    (select_one : Bool) : Except PyError (SelectOut Row) :=
  if select_one then
    match execResult with
    | .ok rows => .ok (.one rows.head?)
    | .error e => .error e
  else
    .ok (.json (fetch_as_json execResult))

/-- `SqlAlchemyUtil.insert`: execute + commit inside `try`; the `except`
block logs and re-raises the original exception (`raise e`). -/
def SqlAlchemyUtil.insert (execCommit : Except PyError Unit) : Except PyError Unit :=
  match execCommit with
  | .ok u => .ok u
  | .error e => .error e

/-- `SqlAlchemyUtil.update_with_where`: same `try/except` shape as
`insert`, re-raising the original exception. -/
def SqlAlchemyUtil.update_with_where (execCommit : Except PyError Unit) :
    Except PyError Unit :=
  match execCommit with
  | .ok u => .ok u
  | .error e => .error e

/-- `SqlAlchemyUtil.upsert`: same `try/except` shape, re-raising the
original exception. -/
def SqlAlchemyUtil.upsert (execCommit : Except PyError Unit) : Except PyError Unit :=
  match execCommit with
  | .ok u => .ok u
  | .error e => .error e

/-- `SqlAlchemyUtil.delete`: same `try/except` shape, re-raising the
original exception. -/
def SqlAlchemyUtil.delete (execCommit : Except PyError Unit) : Except PyError Unit :=
  match execCommit with
  | .ok u => .ok u
  | .error e => .error e

/-! ## Category handler (`scripts/core/handlers/category_handler.py`)

The relational store is modelled as the in-memory list of `CatRow`; the
handler claims (C4, C7, C8) are about the handler's check-then-act logic
with the store behaving normally, so `select`/`insert`/`update` act on
that list directly.  Each operation returns the Python outcome together
with the table contents after the call. -/

/-- `CategoryHandler.create_categories`:
overwrite `category_id` with a fresh `shortuuid` (`genId`), pre-check
`select_from_table(where=[category_name == request.category_name])` for
truthiness (non-`None`, non-empty), raising
`CustomError("Category already exists!!")` on a hit; otherwise stamp
`meta = MetaData(created_by=user_id, created_at=now)` (remaining fields
default) and insert `request_data.model_dump()`, returning the new id. -/
def create_categories (state : List CatRow) (req : CreateCategoriesModel)
    (user_id : String) (now : Int) (genId : String) :
    Except PyError String × List CatRow :=
  if state.any (fun r => r.category_name == req.category_name) then
    (.error (.customError "Category already exists!!"), state)
  else
    let row : CatRow :=
      { category_id := genId
        category_name := req.category_name
        description := req.description
        meta := { created_by := user_id, created_at := now } }
    (.ok genId, state ++ [row])

/-- `CategoryHandler.update_categories`:
select the rows with the requested `category_id`; an empty (falsy) result
raises `CustomError("Invalid category_id !!")`; a single row comes back as
one object whose `["meta"]` fields seed the preserved `created_*` and the
freshly stamped `updated_*` metadata, after which
`update_with_where` rewrites every row matching the id with
`request_data.model_dump()`; two or more matching rows would come back as
a list, making the `category_data["meta"]` subscript a Python `TypeError`
(unreachable when `category_id` is a unique primary key). -/
def update_categories (state : List CatRow) (req : CreateCategoriesModel)
    (user_id : String) (now : Int) : Except PyError Unit × List CatRow :=
  match state.filter (fun r => r.category_id == req.category_id) with
  | [] => (.error (.customError "Invalid category_id !!"), state)
  | [old] =>
    let newMeta : MetaData :=
      { created_at := old.meta.created_at
        created_by := old.meta.created_by
        updated_by := user_id
        updated_at := now }
    let newRow : CatRow :=
      { category_id := req.category_id
        category_name := req.category_name
        description := req.description
        meta := newMeta }
    (.ok (), state.map (fun r => if r.category_id == req.category_id then newRow else r))
  | _ => (.error .typeError, state)

/-- Handler-level fetch result: Python's dynamic return value of
`fetch_categories` / `fetch_transaction` — either the single row object
or a (possibly empty) list of row objects. -/
inductive FetchOut (Row : Type) where
  | obj (r : Row)
  | arr (rs : List Row)
deriving Repr, DecidableEq

/-- Common body of `CategoryHandler.fetch_categories` and
`TransactionHandler.fetch_transaction`: build `select(table)`, run it
through `add_filters`, call `fetch_as_json` and return its value when
truthy, else `[]`.  A single row object encodes every column of the table
and is therefore a non-empty (truthy) dict; a `None` (store failure) or an
empty list lands on the `return []` line; a non-empty list is returned
as-is (`.arr rs` covers both list cases since `[] = rs` when `rs` is
empty). -/
def fetch_rows {Row : Type} (table : TableModel)
    (exec : SqlQuery → Except PyError (List Row)) (input : FilterModel) :
    Except PyError (FetchOut Row) :=
  match add_filters table {} input with
  | .error err => .error err
  | .ok q =>
    match fetch_as_json (exec q) with
    | some (.single r) => .ok (.obj r)
    | some (.many rs) => .ok (.arr rs)
    | none => .ok (.arr [])

/-- `CategoryHandler.fetch_categories`. -/
def fetch_categories (exec : SqlQuery → Except PyError (List CatRow))
    (input : FilterModel) : Except PyError (FetchOut CatRow) :=
  fetch_rows Categories exec input

/-- `TransactionHandler.fetch_transaction`. -/
def fetch_transaction (exec : SqlQuery → Except PyError (List TransRow))
    (input : FilterModel) : Except PyError (FetchOut TransRow) :=
  fetch_rows Transactions exec input

/-- `TransactionHandler.create_transaction`: stamp a fresh `t_id`
(`genId`) and created-metadata, insert `request_data.model_dump()` into
the `transaction` table, and return `request_data.category_id`. -/
def create_transaction (state : List TransRow) (req : CreateTransactionModel)
    (user_id : String) (now : Int) (genId : String) :
    Except PyError String × List TransRow :=
  let row : TransRow :=
    { t_id := genId
      category_id := req.category_id
      amount := req.amount
      description := req.description
      meta := { created_by := user_id, created_at := now } }
  (.ok req.category_id, state ++ [row])

/-! ## User handler (`scripts/core/handlers/user_handler.py`) -/

/-- A user-profile document in the Mongo `user` collection, restricted to
the fields the handler reads and writes. -/
structure UserDoc where
  username : String
  user_role : String
  user_id : String
deriving Repr, DecidableEq

/-- `scripts/core/schemas/user_model.py` class `UserUpdateModel`. -/
structure UserUpdateModel where
  username : String
  user_role : String
  user_id : String
deriving Repr, DecidableEq

/-- Mongo `update_one({"user_id": uid}, {"$set": req.model_dump()})`:
rewrite the fields of the first document matching the query. -/
def updateFirstMatch (coll : List UserDoc) (uid : String) (req : UserUpdateModel) :
    List UserDoc :=
  match coll with
  | [] => []
  | d :: rest =>
    if d.user_id == uid then
      { username := req.username, user_role := req.user_role, user_id := req.user_id } :: rest
    else d :: updateFirstMatch rest uid req

/-- `UserHandler.update_user_info`:
1. `find_one({"username": req.username, "user_id": {"$ne": req.user_id}})`
   truthy raises `CustomError("Username already exists!!")` — note the
   `$ne` excludes the `user_id` of the request body, not the `user_id`
   argument naming the target document;
2. `find_one({"user_id": user_id})` falsy raises
   `CustomError("Unknown User !!")`;
3. otherwise `update_one({"user_id": user_id}, request_data.model_dump())`. -/
def update_user_info (coll : List UserDoc) (req : UserUpdateModel)
    (user_id : String) : Except PyError Unit × List UserDoc :=
  if coll.any (fun d => d.username == req.username && d.user_id != req.user_id) then
    (.error (.customError "Username already exists!!"), coll)
  else if coll.any (fun d => d.user_id == user_id) then
    (.ok (), updateFirstMatch coll user_id req)
  else
    (.error (.customError "Unknown User !!"), coll)

/-! ## HTTP service envelope (`scripts/core/services/*.py`) -/

/-- `DefaultResponseSchema` / `DefaultFailureSchema`: every route wraps
the handler call in `try/except`, returning a success envelope with the
handler's value or a failure envelope with the stringified error. -/
structure ResponseEnvelope (α : Type) where
  status : String
  message : String
  dataV : Option α
deriving Repr, DecidableEq

/-- The uniform route body: success envelope on a normal handler return,
failure envelope (with the route-specific message) on an exception. -/
def runService {α : Type} (failMsg : String) (r : Except PyError α) :
    ResponseEnvelope α :=
  match r with
  | .ok a => { status := "success", message := "success", dataV := some a }
  | .error _ => { status := "failure", message := failMsg, dataV := none }

/-- Route `POST /category/fetch` (`category_services.fetch_categories`). -/
def fetch_categories_service (exec : SqlQuery → Except PyError (List CatRow))
    (input : FilterModel) : ResponseEnvelope (FetchOut CatRow) :=
  runService "Failed to fetch categories" (fetch_categories exec input)

/-- Route `POST /transaction/fetch` (`transaction_services.fetch_transactions`). -/
def fetch_transactions_service (exec : SqlQuery → Except PyError (List TransRow))
    (input : FilterModel) : ResponseEnvelope (FetchOut TransRow) :=
  runService "Failed to fetch transactions" (fetch_transaction exec input)

/-- Route `POST /transaction/create` (`transaction_services.create_transactions`). -/
def create_transactions_service (state : List TransRow)
    (req : CreateTransactionModel) (user_id : String) (now : Int) (genId : String) :
    ResponseEnvelope String :=
  runService "Failed to create transactions" (create_transaction state req user_id now genId).1

/-! ## Helper lemmas -/

/-- A result list of length exactly one is collapsed to the single object. -/
lemma fetch_as_json_one {Row : Type} (r : Row) :
    fetch_as_json (Except.ok [r]) = some (.single r) := rfl

/-- A result list of any other length is returned as the list itself. -/
lemma fetch_as_json_ne_one {Row : Type} (rows : List Row) (h : rows.length ≠ 1) :
    fetch_as_json (Except.ok rows) = some (.many rows) := by
  match rows with
  | [] => rfl
  | [r] => exact absurd rfl h
  | r1 :: r2 :: rest => rfl

/-- Unfolding `fetch_rows` once `add_filters` has succeeded. -/
lemma fetch_rows_ok {Row : Type} (table : TableModel)
    (exec : SqlQuery → Except PyError (List Row)) (input : FilterModel)
    (q : SqlQuery) (hq : add_filters table {} input = .ok q) :
    fetch_rows table exec input =
      match fetch_as_json (exec q) with
      | some (.single r) => .ok (.obj r)
      | some (.many rs) => .ok (.arr rs)
      | none => .ok (.arr []) := by
  unfold fetch_rows
  rw [hq]

/-! ## Claims -/

/-- Claim C1: for every select executed through the JSON fetch path
(`select_from_table` without `select_one`, and the category/transaction
fetch handlers), if exactly one row matches the query the result is that
single row as one object, and if zero or more than one row matches the
result is a (possibly empty) array of row objects — never a one-element
array. -/
theorem C1_single_object_asymmetry :
    (∀ r : CatRow,
      select_from_table (Except.ok [r]) false = .ok (.json (some (.single r)))) ∧
    (∀ rows : List CatRow, rows.length ≠ 1 →
      select_from_table (Except.ok rows) false = .ok (.json (some (.many rows)))) ∧
    (∀ rows rs : List CatRow,
      fetch_as_json (Except.ok rows) = some (.many rs) → rs.length ≠ 1) ∧
    (∀ (exec : SqlQuery → Except PyError (List CatRow)) (input : FilterModel)
        (q : SqlQuery) (r : CatRow),
      add_filters Categories {} input = .ok q → exec q = .ok [r] →
      fetch_categories exec input = .ok (.obj r)) ∧
    (∀ (exec : SqlQuery → Except PyError (List CatRow)) (input : FilterModel)
        (q : SqlQuery) (rows : List CatRow),
      add_filters Categories {} input = .ok q → exec q = .ok rows →
      rows.length ≠ 1 → fetch_categories exec input = .ok (.arr rows)) ∧
    (∀ (exec : SqlQuery → Except PyError (List TransRow)) (input : FilterModel)
        (q : SqlQuery) (r : TransRow),
      add_filters Transactions {} input = .ok q → exec q = .ok [r] →
      fetch_transaction exec input = .ok (.obj r)) ∧
    (∀ (exec : SqlQuery → Except PyError (List TransRow)) (input : FilterModel)
        (q : SqlQuery) (rows : List TransRow),
      add_filters Transactions {} input = .ok q → exec q = .ok rows →
      rows.length ≠ 1 → fetch_transaction exec input = .ok (.arr rows)) := by
  refine ⟨fun r => rfl, ?_, ?_, ?_, ?_, ?_, ?_⟩
  · intro rows h
    unfold select_from_table
    rw [fetch_as_json_ne_one rows h]
    rfl
  · intro rows rs h
    match rows with
    | [] =>
      have hrs : rs = [] := by simpa [fetch_as_json] using h.symm
      simp [hrs]
    | [r] => simp [fetch_as_json] at h
    | r1 :: r2 :: rest =>
      have hrs : rs = r1 :: r2 :: rest := by simpa [fetch_as_json] using h.symm
      simp [hrs]
  · intro exec input q r hq he
    unfold fetch_categories
    rw [fetch_rows_ok Categories exec input q hq, he, fetch_as_json_one]
  · intro exec input q rows hq he hlen
    unfold fetch_categories
    rw [fetch_rows_ok Categories exec input q hq, he, fetch_as_json_ne_one rows hlen]
  · intro exec input q r hq he
    unfold fetch_transaction
    rw [fetch_rows_ok Transactions exec input q hq, he, fetch_as_json_one]
  · intro exec input q rows hq he hlen
    unfold fetch_transaction
    rw [fetch_rows_ok Transactions exec input q hq, he, fetch_as_json_ne_one rows hlen]

/-- Witness for C1 at a two-row and a one-row concrete result. -/
theorem C1_single_object_asymmetry_witness :
    select_from_table
        (Except.ok [(⟨"1", "Food", "", {}⟩ : CatRow), ⟨"2", "Fuel", "", {}⟩]) false =
      .ok (.json (some (.many [⟨"1", "Food", "", {}⟩, ⟨"2", "Fuel", "", {}⟩]))) :=
  C1_single_object_asymmetry.2.1
    [⟨"1", "Food", "", {}⟩, ⟨"2", "Fuel", "", {}⟩] (by decide)

/-- Claim C7: updating a Category whose `category_id` matches no existing
row fails with `CustomError("Invalid category_id !!")` (the NotFoundError
of the spec) and performs no write: the table is unchanged. -/
theorem C7_update_unknown_id_not_found (state : List CatRow)
    (req : CreateCategoriesModel) (user_id : String) (now : Int)
    (h : state.filter (fun r => r.category_id == req.category_id) = []) :
    update_categories state req user_id now =
      (.error (.customError "Invalid category_id !!"), state) := by
  unfold update_categories
  rw [h]

/-- Witness for C7: a one-row table and an update naming an absent id. -/
theorem C7_update_unknown_id_not_found_witness :
    update_categories [(⟨"1", "Food", "", {}⟩ : CatRow)] ⟨"2", "Fuel", "", none⟩ "u" 7 =
      (.error (.customError "Invalid category_id !!"), [(⟨"1", "Food", "", {}⟩ : CatRow)]) :=
  C7_update_unknown_id_not_found [⟨"1", "Food", "", {}⟩] ⟨"2", "Fuel", "", none⟩ "u" 7
    (by decide)

/-- Claim C8: a successful Category update preserves the stored
`meta.created_by` / `meta.created_at`, stamps `meta.updated_by` with the
requesting user and `meta.updated_at` with the current time, writes
exactly the payload fields, and leaves every row with a different
`category_id` in place. -/
theorem C8_update_preserves_created_meta (state : List CatRow)
    (req : CreateCategoriesModel) (user_id : String) (now : Int) (old : CatRow)
    (h : state.filter (fun r => r.category_id == req.category_id) = [old]) :
    ∃ newRow : CatRow,
      update_categories state req user_id now =
        (.ok (), state.map (fun r => if r.category_id == req.category_id then newRow else r)) ∧
      newRow.meta.created_by = old.meta.created_by ∧
      newRow.meta.created_at = old.meta.created_at ∧
      newRow.meta.updated_by = user_id ∧
      newRow.meta.updated_at = now ∧
      newRow.category_id = req.category_id ∧
      newRow.category_name = req.category_name ∧
      newRow.description = req.description ∧
      ∀ r ∈ state, r.category_id ≠ req.category_id →
        r ∈ state.map (fun r2 => if r2.category_id == req.category_id then newRow else r2) := by
  refine ⟨⟨req.category_id, req.category_name, req.description,
      ⟨old.meta.created_by, old.meta.created_at, now, user_id⟩⟩,
    ?_, rfl, rfl, rfl, rfl, rfl, rfl, rfl, ?_⟩
  · unfold update_categories
    rw [h]
  · intro r hr hne
    refine List.mem_map.mpr ⟨r, hr, ?_⟩
    have : (r.category_id == req.category_id) = false := by
      simpa using hne
    simp [this]

/-- Witness for C8: updating the single row of a one-row table. -/
theorem C8_update_preserves_created_meta_witness :
    ∃ newRow : CatRow,
      update_categories [(⟨"1", "Food", "", ⟨"alice", 3, 0, ""⟩⟩ : CatRow)]
          ⟨"1", "Groceries", "d", none⟩ "bob" 9 =
        (.ok (), [(⟨"1", "Food", "", ⟨"alice", 3, 0, ""⟩⟩ : CatRow)].map
          (fun r => if r.category_id == "1" then newRow else r)) ∧
      newRow.meta.created_by = "alice" ∧
      newRow.meta.created_at = 3 ∧
      newRow.meta.updated_by = "bob" ∧
      newRow.meta.updated_at = 9 ∧
      newRow.category_id = "1" ∧
      newRow.category_name = "Groceries" ∧
      newRow.description = "d" ∧
      ∀ r ∈ [(⟨"1", "Food", "", ⟨"alice", 3, 0, ""⟩⟩ : CatRow)], r.category_id ≠ "1" →
        r ∈ [(⟨"1", "Food", "", ⟨"alice", 3, 0, ""⟩⟩ : CatRow)].map
          (fun r2 => if r2.category_id == "1" then newRow else r2) :=
  C8_update_preserves_created_meta [⟨"1", "Food", "", ⟨"alice", 3, 0, ""⟩⟩]
    ⟨"1", "Groceries", "d", none⟩ "bob" 9 ⟨"1", "Food", "", ⟨"alice", 3, 0, ""⟩⟩
    (by decide)

/-- Claim C9: a successful transaction create returns (and the route
envelope carries as `data`) the `category_id` supplied in the request,
not the newly generated transaction id `t_id`. -/
theorem C9_create_transaction_returns_category_id (state : List TransRow)
    (req : CreateTransactionModel) (user_id : String) (now : Int) (genId : String)
    (hne : genId ≠ req.category_id) :
    (create_transaction state req user_id now genId).1 = .ok req.category_id ∧
    create_transactions_service state req user_id now genId =
      { status := "success", message := "success", dataV := some req.category_id } ∧
    ∃ row : TransRow,
      (create_transaction state req user_id now genId).2 = state ++ [row] ∧
      row.t_id = genId ∧
      (create_transaction state req user_id now genId).1 ≠ .ok row.t_id := by
  refine ⟨rfl, rfl, ⟨_, rfl, rfl, ?_⟩⟩
  intro hEq
  exact hne (Except.ok.inj hEq).symm

/-- Witness for C9: a concrete create with distinct generated and linked ids. -/
theorem C9_create_transaction_returns_category_id_witness :
    (create_transaction [] ⟨"", "cat7", "12.5", "", none⟩ "u" 4 "tid9").1 = .ok "cat7" ∧
    create_transactions_service [] ⟨"", "cat7", "12.5", "", none⟩ "u" 4 "tid9" =
      { status := "success", message := "success", dataV := some "cat7" } ∧
    ∃ row : TransRow,
      (create_transaction [] ⟨"", "cat7", "12.5", "", none⟩ "u" 4 "tid9").2 = [] ++ [row] ∧
      row.t_id = "tid9" ∧
      (create_transaction [] ⟨"", "cat7", "12.5", "", none⟩ "u" 4 "tid9").1 ≠ .ok row.t_id :=
  C9_create_transaction_returns_category_id [] ⟨"", "cat7", "12.5", "", none⟩ "u" 4 "tid9"
    (by decide)

/-- Claim C10: if the underlying query execution raises during a category
or transaction fetch, `fetch_as_json` swallows the exception and returns
`None`, the handler returns `[]`, and the route produces a success
envelope — indistinguishable from a query that matched zero rows. -/
theorem C10_fetch_failure_indistinguishable (e : PyError)
    (inputC inputT : FilterModel) (qC qT : SqlQuery)
    (hC : add_filters Categories {} inputC = .ok qC)
    (hT : add_filters Transactions {} inputT = .ok qT) :
    fetch_as_json (Except.error e : Except PyError (List CatRow)) = none ∧
    fetch_categories (fun _ => .error e) inputC = .ok (.arr []) ∧
    fetch_categories (fun _ => .error e) inputC =
      fetch_categories (fun _ => .ok []) inputC ∧
    fetch_categories_service (fun _ => .error e) inputC =
      { status := "success", message := "success", dataV := some (.arr []) } ∧
    fetch_transaction (fun _ => .error e) inputT = .ok (.arr []) ∧
    fetch_transaction (fun _ => .error e) inputT =
      fetch_transaction (fun _ => .ok []) inputT ∧
    fetch_transactions_service (fun _ => .error e) inputT =
      { status := "success", message := "success", dataV := some (.arr []) } := by
  have hCat : fetch_categories (fun _ => .error e) inputC = .ok (.arr []) := by
    unfold fetch_categories
    rw [fetch_rows_ok Categories _ inputC qC hC]
    rfl
  have hCat0 : fetch_categories (fun _ => .ok []) inputC = .ok (.arr []) := by
    unfold fetch_categories
    rw [fetch_rows_ok Categories _ inputC qC hC]
    rfl
  have hTr : fetch_transaction (fun _ => .error e) inputT = .ok (.arr []) := by
    unfold fetch_transaction
    rw [fetch_rows_ok Transactions _ inputT qT hT]
    rfl
  have hTr0 : fetch_transaction (fun _ => .ok []) inputT = .ok (.arr []) := by
    unfold fetch_transaction
    rw [fetch_rows_ok Transactions _ inputT qT hT]
    rfl
  refine ⟨rfl, hCat, hCat.trans hCat0.symm, ?_, hTr, hTr.trans hTr0.symm, ?_⟩
  · unfold fetch_categories_service runService
    rw [hCat]
  · unfold fetch_transactions_service runService
    rw [hTr]

/-- Witness for C10: the empty FilterSpec compiles to the base query. -/
theorem C10_fetch_failure_indistinguishable_witness :
    fetch_as_json (Except.error (PyError.storeError "boom") : Except PyError (List CatRow)) = none ∧
    fetch_categories (fun _ => .error (PyError.storeError "boom")) {} = .ok (.arr []) ∧
    fetch_categories (fun _ => .error (PyError.storeError "boom")) {} =
      fetch_categories (fun _ => .ok []) {} ∧
    fetch_categories_service (fun _ => .error (PyError.storeError "boom")) {} =
      { status := "success", message := "success", dataV := some (.arr []) } ∧
    fetch_transaction (fun _ => .error (PyError.storeError "boom")) {} = .ok (.arr []) ∧
    fetch_transaction (fun _ => .error (PyError.storeError "boom")) {} =
      fetch_transaction (fun _ => .ok []) {} ∧
    fetch_transactions_service (fun _ => .error (PyError.storeError "boom")) {} =
      { status := "success", message := "success", dataV := some (.arr []) } :=
  C10_fetch_failure_indistinguishable (PyError.storeError "boom") {} {} {} {} rfl rfl

/-! ### Claim C2 (corrected) -/

/-- Counterexample to claim C2 as stated: the sortModel colId `"metax"`
resolves to itself, names no column of `Categories` (and no other class
attribute), yet the entry is not silently dropped — `"metax".split(".")[1]`
raises IndexError, so the compiled query is an error rather than the query
with the entry removed. -/
theorem C2_unknown_meta_colid_raises :
    Categories.cols.contains "metax" = false ∧
    Categories.attrs.contains "metax" = false ∧
    resolveColId "metax" = "metax" ∧
    add_filters Categories {} { sortModel := [⟨"metax", "asc"⟩] } = .error .indexError ∧
    add_filters Categories {} {} = .ok {} := by
  refine ⟨by decide, by decide, by decide, by rfl, by rfl⟩

/-- Helper: a sort entry whose resolved colId is no attribute of the table
and does not start with `"meta"` leaves the query untouched. -/
lemma addSortEntry_unknown_skip (table : TableModel) (q : SqlQuery) (e : SortEntry)
    (h1 : table.cols.contains (resolveColId e.colId) = false)
    (h2 : table.attrs.contains (resolveColId e.colId) = false)
    (h3 : pyStartsWith (resolveColId e.colId) "meta" = false) :
    addSortEntry table q e = .ok q := by
  unfold addSortEntry
  rw [h1, h2, h3]
  simp

/-- Helper: a filter key that is no attribute of the table is skipped. -/
lemma addFilterEntry_unknown_skip (table : TableModel) (q : SqlQuery)
    (k : String) (v : FilterVal)
    (h1 : table.cols.contains k = false) (h2 : table.attrs.contains k = false) :
    addFilterEntry table q (k, v) = .ok q := by
  unfold addFilterEntry
  rw [h1, h2]
  simp

/-- Helper: dropping a no-op sort entry anywhere in the loop. -/
lemma sortLoop_skip_middle (table : TableModel) (sm1 sm2 : List SortEntry)
    (e : SortEntry) (hskip : ∀ q : SqlQuery, addSortEntry table q e = .ok q) :
    ∀ q : SqlQuery, sortLoop table q (sm1 ++ e :: sm2) = sortLoop table q (sm1 ++ sm2) := by
  induction sm1 with
  | nil =>
    intro q
    simp [sortLoop, hskip q]
  | cons a t ih =>
    intro q
    simp only [List.cons_append, sortLoop]
    cases addSortEntry table q a with
    | ok q1 => exact ih q1
    | error err => rfl

/-- Helper: dropping a no-op filter entry anywhere in the loop. -/
lemma filterLoop_skip_middle (table : TableModel)
    (fm1 fm2 : List (String × FilterVal)) (kv : String × FilterVal)
    (hskip : ∀ q : SqlQuery, addFilterEntry table q kv = .ok q) :
    ∀ q : SqlQuery, filterLoop table q (fm1 ++ kv :: fm2) = filterLoop table q (fm1 ++ fm2) := by
  induction fm1 with
  | nil =>
    intro q
    simp [filterLoop, hskip q]
  | cons a t ih =>
    intro q
    simp only [List.cons_append, filterLoop]
    cases addFilterEntry table q a with
    | ok q1 => exact ih q1
    | error err => rfl

/-- Claim C2 amended: a filterModel entry whose key names neither a column
nor any other attribute of the table, and a sortModel entry whose
alias-resolved colId additionally does not start with `"meta"`, have zero
effect: the compiled query equals that of the same FilterSpec with the
entry removed.  (As stated the claim is false: a sortModel colId that
starts with `"meta"` is never dropped — `meta.<field>` orders by the JSON
extraction and a dotless one raises IndexError, see the counterexample.) -/
theorem C2_unknown_entry_dropped (table : TableModel) (q : SqlQuery)
    (fm1 fm2 : List (String × FilterVal)) (k : String) (v : FilterVal)
    (sm1 sm2 : List SortEntry) (e : SortEntry)
    (hs1 : table.cols.contains (resolveColId e.colId) = false)
    (hs2 : table.attrs.contains (resolveColId e.colId) = false)
    (hs3 : pyStartsWith (resolveColId e.colId) "meta" = false)
    (hf1 : table.cols.contains k = false)
    (hf2 : table.attrs.contains k = false) :
    add_filters table q { filterModel := fm1 ++ (k, v) :: fm2, sortModel := sm1 ++ e :: sm2 } =
      add_filters table q { filterModel := fm1 ++ fm2, sortModel := sm1 ++ sm2 } := by
  unfold add_filters query_builder
  rw [sortLoop_skip_middle table sm1 sm2 e
      (fun qq => addSortEntry_unknown_skip table qq e hs1 hs2 hs3) q]
  cases sortLoop table q (sm1 ++ sm2) with
  | ok q1 =>
    exact filterLoop_skip_middle table fm1 fm2 (k, v)
      (fun qq => addFilterEntry_unknown_skip table qq k v hf1 hf2) q1
  | error err => rfl

/-- Witness for the amended C2: the unknown column `"colour"` in both
models of a concrete FilterSpec over `Categories` is dropped. -/
theorem C2_unknown_entry_dropped_witness :
    add_filters Categories {}
        { filterModel := [("colour", .str "red")],
          sortModel := [⟨"colour", "asc"⟩, ⟨"category_name", "desc"⟩] } =
      add_filters Categories {}
        { filterModel := [], sortModel := [⟨"category_name", "desc"⟩] } :=
  C2_unknown_entry_dropped Categories {} [] [] "colour" (.str "red")
    [] [⟨"category_name", "desc"⟩] ⟨"colour", "asc"⟩
    (by decide) (by decide) (by decide) (by decide) (by decide)

/-! ### Claim C3 (corrected) -/

/-- Counterexample to claim C3 as stated: the sort entry
`{colId: "created_at", sort: "bogus"}` alias-resolves to the JSON path
`meta.created_at`; its direction is neither `"desc"` nor `"asc"`, yet an
ascending order clause on `meta->>'created_at'` is added — the meta branch
does not use the same direction rule as the direct-column branch. -/
theorem C3_meta_sort_unknown_direction_adds_asc :
    (pyLower "bogus" == "desc") = false ∧
    (pyLower "bogus" == "asc") = false ∧
    add_filters Categories {} { sortModel := [⟨"created_at", "bogus"⟩] } =
      .ok { orders := [.metaOrd "created_at" .ascD] } ∧
    ({ orders := [.metaOrd "created_at" .ascD] } : SqlQuery) ≠ {} := by
  refine ⟨by decide, by decide, by rfl, by decide⟩

/-- Claim C3 amended: a sortModel entry whose direction is neither
`"desc"` nor `"asc"` (case-insensitively) adds no order clause when the
resolved colId names a direct table column; but when the colId resolves to
the JSON path `meta.<field>`, `"desc"` yields a descending clause and
every other direction — `"asc"` or not — yields an ascending clause on the
extracted expression. -/
theorem C3_direction_rule (table : TableModel) (q : SqlQuery) (e : SortEntry) :
    (table.cols.contains (resolveColId e.colId) = true →
      (pyLower e.sort == "desc") = false → (pyLower e.sort == "asc") = false →
      addSortEntry table q e = .ok q) ∧
    (table.cols.contains (resolveColId e.colId) = false →
      table.attrs.contains (resolveColId e.colId) = false →
      pyStartsWith (resolveColId e.colId) "meta" = true →
      ∀ fld : String, (pySplit (resolveColId e.colId) '.').get? 1 = some fld →
        ((pyLower e.sort == "desc") = true →
          addSortEntry table q e = .ok { q with orders := q.orders ++ [.metaOrd fld .descD] }) ∧
        ((pyLower e.sort == "desc") = false →
          addSortEntry table q e = .ok { q with orders := q.orders ++ [.metaOrd fld .ascD] })) := by
  constructor
  · intro hcol hd ha
    unfold addSortEntry
    rw [hcol, hd, ha]
    simp
  · intro h1 h2 h3 fld hfld
    constructor
    · intro hd
      unfold addSortEntry
      rw [h1, h2, h3, hfld, hd]
      simp
    · intro hd
      unfold addSortEntry
      rw [h1, h2, h3, hfld, hd]
      simp

/-- Witness for the amended C3: direction `"Random"` on the direct column
`category_name` adds nothing, and on the alias-resolved `created_at`
(JSON path `meta.created_at`) adds an ascending clause. -/
theorem C3_direction_rule_witness :
    addSortEntry Categories {} ⟨"category_name", "Random"⟩ = .ok {} ∧
    addSortEntry Categories {} ⟨"created_at", "Random"⟩ =
      .ok { orders := [.metaOrd "created_at" .ascD] } :=
  ⟨(C3_direction_rule Categories {} ⟨"category_name", "Random"⟩).1
      (by decide) (by decide) (by decide),
   ((C3_direction_rule Categories {} ⟨"created_at", "Random"⟩).2
      (by decide) (by decide) (by decide) "created_at" (by decide)).2 (by decide)⟩

/-! ### Claim C4 (corrected) -/

/-- Counterexample to claim C4 as stated: the update path performs no
`category_name` pre-check — renaming category `"2"` from `"Fuel"` to the
already-taken `"Food"` succeeds and leaves two Category rows with the
same `category_name`. -/
theorem C4_update_can_duplicate_names :
    (update_categories
        [⟨"1", "Food", "", ⟨"u", 0, 0, ""⟩⟩, ⟨"2", "Fuel", "", ⟨"u", 0, 0, ""⟩⟩]
        ⟨"2", "Food", "", none⟩ "u2" 5).1 = .ok () ∧
    ((update_categories
        [⟨"1", "Food", "", ⟨"u", 0, 0, ""⟩⟩, ⟨"2", "Fuel", "", ⟨"u", 0, 0, ""⟩⟩]
        ⟨"2", "Food", "", none⟩ "u2" 5).2.filter
      (fun r => r.category_name == "Food")).length = 2 := by
  refine ⟨by rfl, by rfl⟩

/-- Claim C4 amended: the `category_name` uniqueness pre-check exists only
on the create path: creating a Category whose `category_name` already
exists fails with `CustomError("Category already exists!!")` and inserts
nothing (the table, existing rows included, is unchanged), while a create
with a fresh name appends exactly one row; the update path performs no
such check (see the counterexample), so the pre-check does not prevent
duplicates through update. -/
theorem C4_create_name_precheck (state : List CatRow)
    (req : CreateCategoriesModel) (user_id : String) (now : Int) (genId : String) :
    (state.any (fun r => r.category_name == req.category_name) = true →
      create_categories state req user_id now genId =
        (.error (.customError "Category already exists!!"), state)) ∧
    (state.any (fun r => r.category_name == req.category_name) = false →
      (create_categories state req user_id now genId).1 = .ok genId ∧
      ∃ row : CatRow,
        (create_categories state req user_id now genId).2 = state ++ [row] ∧
        row.category_name = req.category_name ∧
        row.category_id = genId ∧
        row.meta.created_by = user_id ∧
        row.meta.created_at = now) := by
  constructor
  · intro h
    unfold create_categories
    rw [h]
    rfl
  · intro h
    unfold create_categories
    rw [h]
    exact ⟨rfl, _, rfl, rfl, rfl, rfl, rfl⟩

/-- Witness for the amended C4: creating `"Food"` again on a table that
already holds a `"Food"` row fails and leaves the table unchanged. -/
theorem C4_create_name_precheck_witness :
    create_categories [(⟨"1", "Food", "", {}⟩ : CatRow)] ⟨"", "Food", "", none⟩ "u" 3 "9" =
      (.error (.customError "Category already exists!!"), [(⟨"1", "Food", "", {}⟩ : CatRow)]) :=
  (C4_create_name_precheck [⟨"1", "Food", "", {}⟩] ⟨"", "Food", "", none⟩ "u" 3 "9").1
    (by decide)

/-! ### Claim C5 (corrected) -/

/-- Counterexample to claim C5 as stated: a select through the JSON fetch
path whose underlying execution raises does not propagate any error — it
returns the normal value `None` (`select_from_table` returns
`Except.ok`, never the error). -/
theorem C5_select_json_swallows_failure :
    select_from_table
        (Except.error (PyError.storeError "connection refused") : Except PyError (List CatRow))
        false = .ok (.json none) ∧
    select_from_table
        (Except.error (PyError.storeError "connection refused") : Except PyError (List CatRow))
        false ≠ .error (PyError.storeError "connection refused") := by
  refine ⟨rfl, fun h => ?_⟩
  exact Except.noConfusion h

/-- Claim C5 amended: `insert`, `update_with_where`, `upsert`, `delete`
and `select_from_table` with `select_one` re-raise the original store
exception to the caller; but `select_from_table` on the JSON fetch path
swallows the failure inside `fetch_as_json` and returns `None` instead of
raising. -/
theorem C5_error_propagation (e : PyError) :
    SqlAlchemyUtil.insert (.error e) = .error e ∧
    SqlAlchemyUtil.update_with_where (.error e) = .error e ∧
    SqlAlchemyUtil.upsert (.error e) = .error e ∧
    SqlAlchemyUtil.delete (.error e) = .error e ∧
    select_from_table (Except.error e : Except PyError (List CatRow)) true = .error e ∧
    select_from_table (Except.error e : Except PyError (List CatRow)) false =
      .ok (.json none) :=
  ⟨rfl, rfl, rfl, rfl, rfl, rfl⟩

/-! ### Claim C6 (corrected) -/

/-- Counterexample to claim C6 as stated: the collection holds exactly one
document, `{username: "bob", user_id: "A"}` — the target user "A" itself
owns the requested username — yet updating target "A" with a request body
whose `user_id` field is `"B"` fails with the conflict error, because the
pre-check excludes the request body's `user_id`, not the target's. -/
theorem C6_conflict_excludes_body_user_id :
    (update_user_info [⟨"bob", "admin", "A"⟩] ⟨"bob", "admin", "B"⟩ "A").1 =
      .error (.customError "Username already exists!!") ∧
    (update_user_info [⟨"bob", "admin", "A"⟩] ⟨"bob", "admin", "B"⟩ "A").2 =
      [⟨"bob", "admin", "A"⟩] ∧
    ([(⟨"bob", "admin", "A"⟩ : UserDoc)].any
      (fun d => d.username == "bob" && d.user_id == "A")) = true := by
  refine ⟨by rfl, by rfl, by decide⟩

/-- Claim C6 amended: the conflict pre-check compares ownership against
the `user_id` field of the request body (not the target's): updating to a
username owned by any document whose `user_id` differs from the request
body's `user_id` fails with `CustomError("Username already exists!!")`;
otherwise a target `user_id` absent from the collection fails with
`CustomError("Unknown User !!")`; both checks precede any write (the
collection is returned unchanged on either error); otherwise the update
succeeds and rewrites the first document matching the target `user_id`
with the request body's fields. -/
theorem C6_update_user_rules (coll : List UserDoc) (req : UserUpdateModel)
    (user_id : String) :
    (coll.any (fun d => d.username == req.username && d.user_id != req.user_id) = true →
      update_user_info coll req user_id =
        (.error (.customError "Username already exists!!"), coll)) ∧
    (coll.any (fun d => d.username == req.username && d.user_id != req.user_id) = false →
      coll.any (fun d => d.user_id == user_id) = false →
      update_user_info coll req user_id =
        (.error (.customError "Unknown User !!"), coll)) ∧
    (coll.any (fun d => d.username == req.username && d.user_id != req.user_id) = false →
      coll.any (fun d => d.user_id == user_id) = true →
      update_user_info coll req user_id = (.ok (), updateFirstMatch coll user_id req)) := by
  refine ⟨?_, ?_, ?_⟩
  · intro h1
    unfold update_user_info
    rw [h1]
    rfl
  · intro h1 h2
    unfold update_user_info
    rw [h1, h2]
    rfl
  · intro h1 h2
    unfold update_user_info
    rw [h1, h2]
    rfl

/-- Witness for the amended C6: with the username owned only by the
request body's own `user_id` and an existing target, the update succeeds
and rewrites the target document. -/
theorem C6_update_user_rules_witness :
    update_user_info [⟨"bob", "admin", "A"⟩] ⟨"carol", "viewer", "A"⟩ "A" =
      (.ok (), updateFirstMatch [⟨"bob", "admin", "A"⟩] "A" ⟨"carol", "viewer", "A"⟩) :=
  (C6_update_user_rules [⟨"bob", "admin", "A"⟩] ⟨"carol", "viewer", "A"⟩ "A").2.2
    (by decide) (by decide)

end ExpenseApp
